import Mathlib

/-!
# Verification of the crx client session controller (src/src/client/crx.ts)

This file gives a shallow embedding, in Lean 4, of the client-side session
controller of the playwright-crx repository: the `Crx` controller
(`start` / `get` / `forceReset` / the private `_start`), the
`CrxApplication` event wiring, the `CrxRecorder` state machine, and the
`attachAll` URL normalization.

Modelling conventions:

* The code is single-threaded, event-loop based async TypeScript.  Every
  remote call is a suspension point whose outcome is decided by the remote
  host; we model the remote host as an `Env` of oracles (the outcome of the
  k-th `_channel.start` call, whether `context().pages()` succeeds for a
  given session, the outcome of `close`).  By the time a sequential caller
  awaits a cached promise it has settled, so a slot
  (`_crxAppPromise` / `_incognitoCrxPromise`) is modelled as an
  `Option (Except Err Nat)`: `none` = `undefined`, `some (.ok s)` =
  a promise resolved with the application session `s`, `some (.error e)` =
  a rejected promise (a failed `_start` leaves exactly this in the slot).
* Application sessions are identified by a `Nat` id (object identity of the
  `CrxApplication`); the session id returned by the k-th remote start call
  is `Env.startResult k`.
* Errors are values of `Err`.  The catch clause of `start` discriminates
  errors with `error.message.includes('already started')`, so `Err` records
  whether the message contains that substring.
* `crxApp.on('close', onClose)` handlers are recorded in the ghost list
  `handlers`: the closure registered by `_start` for mode `m` on session `s`
  is the pair `(s, m)`; delivering a `close` event of session `s` runs every
  registered closure with matching session (`deliverClose`).
* `ghostResets` / `ghostClosed` are instrumentation fields: they record, in
  order, the forced resets performed and the sessions on which a best-effort
  `close()` was attempted.  No control flow reads them.
* Recursion of `start` (the reset-and-retry path calls `this.start(options)`
  again) is modelled with explicit fuel; `none` means the computation is
  still recursing after `fuel` nested `start` invocations.  This is not a
  modelling shortcut: one of the theorems below shows the recursion is
  genuinely unbounded for some environments.
-/

/-- Error values.  `alreadyStarted` is the `new Error('... is already
started')` thrown by `start` itself (its message contains the substring
`already started`); `remote b t` is a rejection coming from the remote
channel, where `b` records whether its message contains the substring
`already started` (the discriminator used by the catch clause of `start`)
and `t` is an arbitrary tag identifying the error, so that verbatim
propagation is expressible. -/
inductive Err where
  | alreadyStarted : Err
  | remote (msgHasAlreadyStarted : Bool) (tag : Nat) : Err
  deriving DecidableEq, Repr

/-- Does `error.message.includes('already started')` hold? -/
def Err.includesAlreadyStarted : Err → Bool
  | .alreadyStarted => true
  | .remote b _ => b

instance : DecidableEq (Except Err Nat) := fun a b =>
  match a, b with
  | .ok x, .ok y =>
    if h : x = y then .isTrue (by rw [h]) else .isFalse (by simp [h])
  | .ok _, .error _ => .isFalse (by simp)
  | .error _, .ok _ => .isFalse (by simp)
  | .error e, .error f =>
    if h : e = f then .isTrue (by rw [h]) else .isFalse (by simp [h])

/-- The remote host, as oracles deciding each suspension point:
`startResult k` is the outcome of the k-th `_channel.start` call (counted
over the controller's lifetime), `probeOk s` says whether awaiting
`context().pages()` on session `s` succeeds (the liveness probe), and
`closeResult s` is the outcome of `close()` on session `s`. -/
structure Env where
  startResult : Nat → Except Err Nat
  probeOk : Nat → Bool
  closeResult : Nat → Except Err Unit

/-- The mutable state of a `Crx` controller instance.  The first two fields
are the two mode slots (`incognito = false` resp. `true`); `handlers` records
the `on('close', onClose)` registrations made by `_start` as pairs
(session id, incognito flag of the slot the closure clears); `startCalls`
counts remote start calls (indexing `Env.startResult`); the two ghost fields
log forced resets and best-effort close attempts. -/
structure CrxState where
  crxAppPromise : Option (Except Err Nat)
  incognitoCrxPromise : Option (Except Err Nat)
  handlers : List (Nat × Bool)
  startCalls : Nat
  ghostResets : Nat
  ghostClosed : List Nat
  deriving DecidableEq, Repr

/-- A fresh controller: both slots `undefined`, nothing registered. -/
def initState : CrxState :=
  { crxAppPromise := none, incognitoCrxPromise := none, handlers := []
    startCalls := 0, ghostResets := 0, ghostClosed := [] }

/-- The slot for a mode: `_incognitoCrxPromise` when `incog`, else
`_crxAppPromise`. -/
def slotOf (incog : Bool) (st : CrxState) : Option (Except Err Nat) :=
  if incog then st.incognitoCrxPromise else st.crxAppPromise

/-- Assign the slot for a mode. -/
def setSlot (incog : Bool) (v : Option (Except Err Nat)) (st : CrxState) : CrxState :=
  if incog then { st with incognitoCrxPromise := v } else { st with crxAppPromise := v }

namespace Crx

/-- One arm of `forceReset`: given an old slot value, the sessions on which a
close is attempted.  `none`: no old promise, skip.  `some (.error _)`:
`await oldPromise` throws; the surrounding `try/catch` swallows it and closes
nothing.  `some (.ok app)`: `app.close().catch(() => {})` is attempted on
`app`; both a resolution and a rejection of `closeResult` are swallowed, so
the attempt is logged either way and nothing escapes. -/
def tryCloseOld (env : Env) (slot : Option (Except Err Nat)) : List Nat :=
  match slot with
  | none => []
  | some (.error _) => []
  | some (.ok app) =>
    match env.closeResult app with
    | .ok _ => [app]
    | .error _ => [app]

/-- Crx.forceReset: stores the old promises, immediately clears both slots,
then best-effort closes what the old promises held, swallowing every error.
The function is total into `CrxState` because the source catches every
exception on this path (`try { ... } catch (e) { }` around each await and
`.catch(() => {})` on each close), so `forceReset` never rejects. -/
def forceReset (env : Env) (st : CrxState) : CrxState :=
  let closedNow := tryCloseOld env st.crxAppPromise ++ tryCloseOld env st.incognitoCrxPromise
  { st with crxAppPromise := none, incognitoCrxPromise := none
            ghostClosed := st.ghostClosed ++ closedNow }

/-- The sessions a state holds (a slot counts when it is a resolved promise);
`forceReset` attempts to close exactly these. -/
def heldSessions (st : CrxState) : List Nat :=
  (match st.crxAppPromise with
   | some (.ok s) => [s]
   | _ => []) ++
  (match st.incognitoCrxPromise with
   | some (.ok s) => [s]
   | _ => [])

/-- Crx._start: issues the remote start call (consuming the next
`startResult`), and on success registers the one-shot close handler
`crxApp.on('close', onClose)` for the given mode.  Returns the settled
promise value together with the updated state. -/
def crxStart (env : Env) (incog : Bool) (st : CrxState) :
    Except Err Nat × CrxState :=
  match env.startResult st.startCalls with
  | .ok s =>
    (.ok s, { st with startCalls := st.startCalls + 1, handlers := (s, incog) :: st.handlers })
  | .error e =>
    (.error e, { st with startCalls := st.startCalls + 1 })

/-- The reset performed on the recovery path of `start`
(`await this.forceReset()`), with the ghost reset counter bumped. -/
def resetForRetry (env : Env) (st : CrxState) : CrxState :=
  forceReset env { st with ghostResets := st.ghostResets + 1 }

/-- Crx.start, with explicit fuel bounding the depth of the
`return this.start(options)` recursion on the recovery path; `none` means
the computation is still recursing after `fuel` nested invocations.

Traced against the source:
* slot for the mode non-empty: the `try` block throws the
  `already started` error; the catch clause matches the substring, re-reads
  the (unchanged) slot as `existingPromise`, and probes: `await
  existingPromise` gives the cached value; on `.ok app` it awaits
  `app.context().pages()` (`probeOk app`), returning `app` on success; on a
  probe failure, or when the cached promise is itself rejected, it performs
  `await this.forceReset()` and retries `this.start(options)`.
* slot empty: the slot is assigned the `_start` promise, then awaited.  On
  `.ok app` the session is returned (the slot keeps the resolved promise).
  On a rejection `e` the catch clause runs: when the message of `e` contains
  `already started` the recovery path runs exactly as above (the slot now
  holds the rejected promise, so the probe's await fails and it
  resets-and-retries); otherwise `e` is rethrown, and the slot still holds
  the rejected promise (nothing clears it on this path). -/
def startAux (env : Env) (incog : Bool) : Nat → CrxState → Option (Except Err Nat × CrxState)
  | 0, _ => none
  | fuel + 1, st =>
    match slotOf incog st with
    | some cached =>
      match cached with
      | .ok app =>
        if env.probeOk app then some (.ok app, st)
        else startAux env incog fuel (resetForRetry env st)
      | .error _ => startAux env incog fuel (resetForRetry env st)
    | none =>
      let p := crxStart env incog st
      let st1 := setSlot incog (some p.1) p.2
      match p.1 with
      | .ok app => some (.ok app, st1)
      | .error e =>
        if e.includesAlreadyStarted then
          startAux env incog fuel (resetForRetry env st1)
        else
          some (.error e, st1)

/-- Crx.get: `await` of the slot for the mode; an empty slot yields
`undefined` (absent), a resolved promise yields its session, a rejected
promise makes `get` reject. -/
def get (incog : Bool) (st : CrxState) : Except Err (Option Nat) :=
  match slotOf incog st with
  | none => .ok none
  | some (.ok s) => .ok (some s)
  | some (.error e) => .error e

end Crx

/-- Run the `onClose` closure `(session, mode)` registered by `_start`:
`() => this._crxAppPromise = undefined` (resp. incognito).  It clears its
mode's slot unconditionally, matching or not the slot's current content. -/
def runCloseHandler (s : Nat) (st : CrxState) (h : Nat × Bool) : CrxState :=
  if h.1 = s then
    if h.2 then { st with incognitoCrxPromise := none }
    else { st with crxAppPromise := none }
  else st

/-- Deliver the `close` event of session `s`: every registered
`on('close', ...)` closure whose session is `s` runs, in registration
order. -/
def deliverClose (s : Nat) (st : CrxState) : CrxState :=
  st.handlers.foldl (runCloseHandler s) st

/-!
## CrxApplication event wiring

The constructor subscribes once to the channel and to the owned context:
inbound `attached { page, tabId }` is re-emitted as
`emit('attached', { tabId, page: Page.from(page) })`, inbound
`detached { tabId }` is re-emitted as `emit('detached', tabId)` (the bare
tab id), and the context's `close` event is re-emitted as `emit('close')`.
Protocol page references and resolved page handles are both modelled as
`Nat`; `Page.from` is an abstract resolver passed as a function argument.
-/

/-- Inbound protocol events on the application's channel handled by the
constructor wiring. -/
inductive ChannelEvent where
  | attached (pageRef : Nat) (tabId : Nat)
  | detached (tabId : Nat)
  deriving DecidableEq, Repr

/-- Events emitted by the owned browsing context that the constructor
subscribes to. -/
inductive ContextEvent where
  | close
  deriving DecidableEq, Repr

/-- Payload of an event emitted by a `CrxApplication` to its subscribers.
`attachedObj t p` is the object literal with a `tabId` field `t` and a
`page` field `p`; `tabIdObj t` is an object literal with only a `tabId`
field; `num t` is a bare tab id; `unit` is the absence of a payload. -/
inductive Payload where
  | attachedObj (tabId : Nat) (page : Nat)
  | tabIdObj (tabId : Nat)
  | num (tabId : Nat)
  | unit
  deriving DecidableEq, Repr

/-- An event emitted by a `CrxApplication`: its name and its payload. -/
structure Emitted where
  name : String
  payload : Payload
  deriving DecidableEq, Repr

/-- The channel-side constructor wiring of `CrxApplication`:
`attached` re-emits the object literal with the tab id and the resolved
page (`Page.from(page)` is `resolve pageRef`), `detached` re-emits the bare
tab id. -/
def onChannelEvent (resolve : Nat → Nat) : ChannelEvent → List Emitted
  | .attached pageRef tabId => [{ name := "attached", payload := .attachedObj tabId (resolve pageRef) }]
  | .detached tabId => [{ name := "detached", payload := .num tabId }]

/-- The context-side constructor wiring of `CrxApplication`: the owned
context's `close` event makes the session emit `close`. -/
def onContextEvent : ContextEvent → List Emitted
  | .close => [{ name := "close", payload := .unit }]

/-- Events emitted directly by `CrxApplication.close()` itself: none.  The
method only awaits `this._channel.close()`; the session's own `close` event
comes solely from the context's close notification. -/
def closeCallEmits : List Emitted := []

/-- Modelled from the spec: the `detached` re-emission as the spec sentence
describes it, with payload the object literal `\x7b tabId \x7d` forwarded
verbatim from the inbound protocol event.  Stated only to compare the spec's
wording against the source wiring, which emits the bare tab id instead. -/
def specDetachedReEmission (tabId : Nat) : List Emitted :=
  [{ name := "detached", payload := .tabIdObj tabId }]

/-!
## CrxRecorder state machine

Local state is `_hidden : boolean = true` and `_mode : Mode = 'none'`
(`Mode` is modelled as its string value).  The constructor subscribes to the
channel events `hide`, `show` and `modeChanged`, which are the only writers
of the local state; the commands `setMode`, `show` and `hide` only send a
request on the channel.
-/

/-- The local state of a `CrxRecorder`: the `_hidden` and `_mode` fields. -/
structure RecorderState where
  hidden : Bool
  mode : String
  deriving DecidableEq, Repr

/-- Requests a recorder command sends on the channel. -/
inductive RecorderRequest where
  | setModeReq (mode : String)
  | showRecorderReq
  | hideRecorderReq
  deriving DecidableEq, Repr

/-- Inbound channel events the recorder constructor subscribes to. -/
inductive RecorderEvent where
  | hideEv
  | showEv
  | modeChanged (mode : String)
  deriving DecidableEq, Repr

namespace CrxRecorder

/-- The state a freshly constructed recorder starts in:
`_hidden = true`, `_mode = 'none'`. -/
def init : RecorderState := { hidden := true, mode := "none" }

/-- The accessor `isHidden()`. -/
def isHidden (st : RecorderState) : Bool := st.hidden

/-- The accessor `mode()`. -/
def modeOf (st : RecorderState) : String := st.mode

/-- The event handlers installed by the constructor: `hide` sets
`_hidden = true`, `show` sets `_hidden = false`, `modeChanged` stores the
event's mode. -/
def onEvent : RecorderEvent → RecorderState → RecorderState
  | .hideEv, st => { st with hidden := true }
  | .showEv, st => { st with hidden := false }
  | .modeChanged m, st => { st with mode := m }

/-- CrxRecorder.setMode: awaits `this._channel.setMode(\x7b mode \x7d)`;
touches no local state. -/
def setMode (m : String) (st : RecorderState) : RecorderState × RecorderRequest :=
  (st, .setModeReq m)

/-- CrxRecorder.show (named `showCmd` because `show` is a Lean keyword):
awaits `this._channel.showRecorder(options ?? \x7b\x7d)`; touches no local
state. -/
def showCmd (st : RecorderState) : RecorderState × RecorderRequest :=
  (st, .showRecorderReq)

/-- CrxRecorder.hide: awaits `this._channel.hideRecorder()`; touches no
local state. -/
def hideCmd (st : RecorderState) : RecorderState × RecorderRequest :=
  (st, .hideRecorderReq)

end CrxRecorder

/-- An operation on a recorder: either an inbound channel event arrives, or
the host invokes one of the three commands. -/
inductive RecorderOp where
  | ev (e : RecorderEvent)
  | cmdSetMode (m : String)
  | cmdShow
  | cmdHide
  deriving DecidableEq, Repr

/-- Is the operation an inbound event? -/
def RecorderOp.isEvent : RecorderOp → Bool
  | .ev _ => true
  | _ => false

/-- The effect of one operation on the recorder's local state. -/
def recorderStep (st : RecorderState) : RecorderOp → RecorderState
  | .ev e => CrxRecorder.onEvent e st
  | .cmdSetMode m => (CrxRecorder.setMode m st).1
  | .cmdShow => (CrxRecorder.showCmd st).1
  | .cmdHide => (CrxRecorder.hideCmd st).1

/-- Run a sequence of recorder operations. -/
def runRecorder (st : RecorderState) (ops : List RecorderOp) : RecorderState :=
  ops.foldl recorderStep st

/-!
## attachAll URL normalization

`attachAll` destructures its options into `url` and the remaining options,
normalizes `url` with the conditional
`urlOrUrls ? typeof urlOrUrls === 'string' ? [urlOrUrls] : urlOrUrls :
undefined`, and dispatches `\x7b ...remaining, url \x7d`.  JavaScript
truthiness decides the outer conditional: `undefined` is falsy, a string is
falsy exactly when it is empty, and an array is always truthy.  The
remaining options are opaque and forwarded unchanged (type parameter `R`).
-/

/-- The `url` option of `attachAll` before dispatch: absent, a single
string, or an array of strings. -/
structure AttachAllOptions (R : Type) where
  url : Option (Sum String (List String))
  remaining : R
  deriving DecidableEq

/-- The parameters `attachAll` sends on the channel: the normalized `url`
and the remaining options, forwarded unchanged. -/
structure AttachAllParams (R : Type) where
  url : Option (List String)
  remaining : R
  deriving DecidableEq

/-- The url normalization of `attachAll`, truthiness included: an absent
url stays absent, an empty string is falsy and becomes absent, a non-empty
string is wrapped into a one-element array, and an array (truthy even when
empty) passes through. -/
def normalizeUrl : Option (Sum String (List String)) → Option (List String)
  | none => none
  | some (.inl s) => if s = "" then none else some [s]
  | some (.inr l) => some l

/-- CrxApplication.attachAll, up to the channel call: the request
parameters it dispatches. -/
def attachAllParams {R : Type} (o : AttachAllOptions R) : AttachAllParams R :=
  { url := normalizeUrl o.url, remaining := o.remaining }

/-!
## Helper lemmas
-/

/-- Whatever the outcome of an attempted close, `tryCloseOld` logs the held
session and nothing else; the slot arms determine the log alone. -/
lemma tryCloseOld_eq (env : Env) (slot : Option (Except Err Nat)) :
    Crx.tryCloseOld env slot =
      (match slot with
       | some (.ok s) => [s]
       | _ => []) := by
  rcases slot with _ | (e | s)
  · rfl
  · rfl
  · simp only [Crx.tryCloseOld]
    rcases env.closeResult s with _ | _ <;> rfl

/-- The sessions `forceReset` attempts to close are exactly the held
sessions, independently of how the closes turn out. -/
lemma tryCloseOld_both_eq_held (env : Env) (st : CrxState) :
    Crx.tryCloseOld env st.crxAppPromise ++ Crx.tryCloseOld env st.incognitoCrxPromise =
      Crx.heldSessions st := by
  rw [tryCloseOld_eq, tryCloseOld_eq, Crx.heldSessions]

/-- Reading back the slot just assigned. -/
lemma slotOf_setSlot_same (incog : Bool) (v : Option (Except Err Nat)) (st : CrxState) :
    slotOf incog (setSlot incog v st) = v := by
  cases incog <;> simp [slotOf, setSlot]

/-- Assigning one mode's slot leaves the other mode's slot alone. -/
lemma slotOf_setSlot_other (incog : Bool) (v : Option (Except Err Nat)) (st : CrxState) :
    slotOf (!incog) (setSlot incog v st) = slotOf (!incog) st := by
  cases incog <;> simp [slotOf, setSlot]

/-- Assigning a slot does not touch the handler list. -/
lemma handlers_setSlot (incog : Bool) (v : Option (Except Err Nat)) (st : CrxState) :
    (setSlot incog v st).handlers = st.handlers := by
  cases incog <;> simp [setSlot]

/-- Assigning a slot does not touch the start-call counter. -/
lemma startCalls_setSlot (incog : Bool) (v : Option (Except Err Nat)) (st : CrxState) :
    (setSlot incog v st).startCalls = st.startCalls := by
  cases incog <;> simp [setSlot]

/-- Assigning a slot does not touch the ghost reset counter. -/
lemma ghostResets_setSlot (incog : Bool) (v : Option (Except Err Nat)) (st : CrxState) :
    (setSlot incog v st).ghostResets = st.ghostResets := by
  cases incog <;> simp [setSlot]

/-- Assigning a slot does not touch the ghost close log. -/
lemma ghostClosed_setSlot (incog : Bool) (v : Option (Except Err Nat)) (st : CrxState) :
    (setSlot incog v st).ghostClosed = st.ghostClosed := by
  cases incog <;> simp [setSlot]

/-- After a reset-for-retry, both slots are empty. -/
lemma slotOf_resetForRetry (env : Env) (st : CrxState) (b : Bool) :
    slotOf b (Crx.resetForRetry env st) = none := by
  cases b <;> simp [Crx.resetForRetry, Crx.forceReset, slotOf]

/-- The reset-for-retry keeps the handler list. -/
lemma handlers_resetForRetry (env : Env) (st : CrxState) :
    (Crx.resetForRetry env st).handlers = st.handlers := by
  simp [Crx.resetForRetry, Crx.forceReset]

/-- The reset-for-retry keeps the start-call counter. -/
lemma startCalls_resetForRetry (env : Env) (st : CrxState) :
    (Crx.resetForRetry env st).startCalls = st.startCalls := by
  simp [Crx.resetForRetry, Crx.forceReset]

/-- The reset-for-retry bumps the ghost reset counter by one. -/
lemma ghostResets_resetForRetry (env : Env) (st : CrxState) :
    (Crx.resetForRetry env st).ghostResets = st.ghostResets + 1 := by
  simp [Crx.resetForRetry, Crx.forceReset]

/-- The reset-for-retry logs the best-effort closes of the held sessions. -/
lemma ghostClosed_resetForRetry (env : Env) (st : CrxState) :
    (Crx.resetForRetry env st).ghostClosed = st.ghostClosed ++ Crx.heldSessions st := by
  simp [Crx.resetForRetry, Crx.forceReset, tryCloseOld_both_eq_held]

/-- Unfolding the slot-empty path of `start` when the remote start
succeeds: the session is returned and stored, and its close handler is
registered. -/
lemma startAux_empty_ok (env : Env) (incog : Bool) (fuel : Nat) (st : CrxState) (s : Nat)
    (hslot : slotOf incog st = none)
    (hok : env.startResult st.startCalls = .ok s) :
    Crx.startAux env incog (fuel + 1) st =
      some (.ok s, setSlot incog (some (.ok s))
        { st with startCalls := st.startCalls + 1, handlers := (s, incog) :: st.handlers }) := by
  simp only [Crx.startAux, hslot, Crx.crxStart, hok]

/-- Unfolding the slot-empty path of `start` when the remote start fails
with an error whose message does not contain the substring
`already started`: the rejection is rethrown and the slot keeps the
rejected promise. -/
lemma startAux_empty_error (env : Env) (incog : Bool) (fuel : Nat) (st : CrxState) (e : Err)
    (hslot : slotOf incog st = none)
    (herr : env.startResult st.startCalls = .error e)
    (hflag : e.includesAlreadyStarted = false) :
    Crx.startAux env incog (fuel + 1) st =
      some (.error e, setSlot incog (some (.error e)) { st with startCalls := st.startCalls + 1 }) := by
  simp only [Crx.startAux, hslot, Crx.crxStart, herr, hflag, Bool.false_eq_true, if_false]

/-- A close-handler closure only ever clears a slot, so an empty slot stays
empty. -/
lemma slotOf_runCloseHandler_none (s : Nat) (st : CrxState) (h : Nat × Bool) (b : Bool)
    (hnone : slotOf b st = none) : slotOf b (runCloseHandler s st h) = none := by
  rcases h with ⟨hs, hb⟩
  cases b <;> cases hb <;>
    simp_all [runCloseHandler, slotOf] <;>
    split <;> simp_all

/-- Running any batch of close-handler closures keeps an empty slot
empty. -/
lemma foldl_close_none (s : Nat) (l : List (Nat × Bool)) (b : Bool) :
    ∀ st : CrxState, slotOf b st = none →
      slotOf b (l.foldl (runCloseHandler s) st) = none := by
  induction l with
  | nil => intro st hnone; simpa using hnone
  | cons h t ih =>
    intro st hnone
    simpa using ih _ (slotOf_runCloseHandler_none s st h b hnone)

/-- A closure registered for another session, or for the other mode, leaves
the slot alone. -/
lemma slotOf_runCloseHandler_other (s : Nat) (st : CrxState) (h : Nat × Bool) (b : Bool)
    (hne : h ≠ (s, b)) : slotOf b (runCloseHandler s st h) = slotOf b st := by
  rcases h with ⟨hs, hb⟩
  by_cases hss : hs = s
  · subst hss
    have hbb : hb ≠ b := by
      intro hc; exact hne (by rw [hc])
    cases b <;> cases hb <;> simp_all [runCloseHandler, slotOf]
  · simp [runCloseHandler, hss]

/-- If no closure for `(s, b)` is registered, delivering the close of `s`
leaves the slot for mode `b` unchanged. -/
lemma foldl_close_not_mem (s : Nat) (l : List (Nat × Bool)) (b : Bool)
    (hmem : (s, b) ∉ l) :
    ∀ st : CrxState, slotOf b (l.foldl (runCloseHandler s) st) = slotOf b st := by
  induction l with
  | nil => intro st; rfl
  | cons h t ih =>
    intro st
    have hne : h ≠ (s, b) := by
      intro hc; exact hmem (by rw [hc]; exact List.mem_cons_self _ _)
    have hmem' : (s, b) ∉ t := fun hc => hmem (List.mem_cons_of_mem _ hc)
    calc slotOf b ((h :: t).foldl (runCloseHandler s) st)
        = slotOf b (t.foldl (runCloseHandler s) (runCloseHandler s st h)) := rfl
      _ = slotOf b (runCloseHandler s st h) := ih hmem' _
      _ = slotOf b st := slotOf_runCloseHandler_other s st h b hne

/-- If a closure for `(s, b)` is registered, delivering the close of `s`
empties the slot for mode `b`, whatever that slot currently holds. -/
lemma foldl_close_mem (s : Nat) (l : List (Nat × Bool)) (b : Bool)
    (hmem : (s, b) ∈ l) :
    ∀ st : CrxState, slotOf b (l.foldl (runCloseHandler s) st) = none := by
  induction l with
  | nil => cases hmem
  | cons h t ih =>
    intro st
    by_cases hc : h = (s, b)
    · subst hc
      have hcleared : slotOf b (runCloseHandler s st (s, b)) = none := by
        cases b <;> simp [runCloseHandler, slotOf]
      exact foldl_close_none s t b _ hcleared
    · have hmem' : (s, b) ∈ t := by
        rcases List.mem_cons.mp hmem with hh | ht
        · exact absurd hh.symm hc
        · exact ht
      exact ih hmem' _

/-- Unfolding `start` on a cached resolved session whose probe succeeds:
the cached session is returned and the state is untouched. -/
lemma startAux_cached_ok (env : Env) (incog : Bool) (fuel : Nat) (st : CrxState) (a : Nat)
    (hslot : slotOf incog st = some (.ok a)) (hp : env.probeOk a = true) :
    Crx.startAux env incog (fuel + 1) st = some (.ok a, st) := by
  simp only [Crx.startAux, hslot, hp, if_true]

/-- Unfolding `start` on a cached resolved session whose probe fails: a
forced reset, then the recursive retry. -/
lemma startAux_cached_probeFail (env : Env) (incog : Bool) (fuel : Nat) (st : CrxState) (a : Nat)
    (hslot : slotOf incog st = some (.ok a)) (hp : env.probeOk a = false) :
    Crx.startAux env incog (fuel + 1) st =
      Crx.startAux env incog fuel (Crx.resetForRetry env st) := by
  simp only [Crx.startAux, hslot, hp, Bool.false_eq_true, if_false]

/-- Unfolding `start` on a cached rejected promise: awaiting it in the
probe throws, so a forced reset, then the recursive retry. -/
lemma startAux_cached_error (env : Env) (incog : Bool) (fuel : Nat) (st : CrxState) (e : Err)
    (hslot : slotOf incog st = some (.error e)) :
    Crx.startAux env incog (fuel + 1) st =
      Crx.startAux env incog fuel (Crx.resetForRetry env st) := by
  simp only [Crx.startAux, hslot]

/-- On the slot-empty path, when the remote start outcome for the next call
is either a success or a failure whose message lacks the substring
`already started`, `start` settles without any forced reset. -/
lemma startAux_empty_clean (env : Env) (incog : Bool) (fuel : Nat) (st : CrxState)
    (hslot : slotOf incog st = none)
    (hclean : ∀ e, env.startResult st.startCalls = .error e → e.includesAlreadyStarted = false) :
    ∃ r st', Crx.startAux env incog (fuel + 1) st = some (r, st') ∧
      st'.ghostResets = st.ghostResets := by
  rcases hres : env.startResult st.startCalls with e | s
  · exact ⟨_, _, startAux_empty_error env incog fuel st e hslot hres (hclean e hres),
      by rw [ghostResets_setSlot]⟩
  · exact ⟨_, _, startAux_empty_ok env incog fuel st s hslot hres,
      by rw [ghostResets_setSlot]⟩

/-!
## The claims
-/

/-- C1.  For every mode, if `start(mode)` is called while the slot for that
mode is non-empty and the liveness probe on the cached session (awaiting
the cached promise, then `context().pages()`) succeeds, then `start`
returns exactly the session instance already held in that slot and leaves
the controller state untouched, so two callers of `start` for the same
mode share one underlying session. -/
theorem start_returns_cached_session_when_probe_succeeds
    (env : Env) (st : CrxState) (incog : Bool) (s fuel : Nat)
    (hslot : slotOf incog st = some (.ok s))
    (hprobe : env.probeOk s = true) :
    Crx.startAux env incog (fuel + 1) st = some (.ok s, st) :=
  startAux_cached_ok env incog fuel st s hslot hprobe

/-- An environment where every remote start succeeds (the k-th start call
yields session k+1), every liveness probe succeeds and every close
succeeds. -/
def allOkEnv : Env :=
  { startResult := fun k => .ok (k + 1)
    probeOk := fun _ => true
    closeResult := fun _ => .ok () }

/-- Witness for C1: a controller caching session 5 hands it back to a
second `start` caller. -/
theorem start_returns_cached_session_when_probe_succeeds_check :
    Crx.startAux allOkEnv false (0 + 1) { initState with crxAppPromise := some (.ok 5) } =
      some (.ok 5, { initState with crxAppPromise := some (.ok 5) }) :=
  start_returns_cached_session_when_probe_succeeds allOkEnv
    { initState with crxAppPromise := some (.ok 5) } false 5 0 rfl rfl

/-- C2.  For every mode, if `start(mode)` finds a non-empty slot and the
liveness probe on the cached session fails (either the cached promise is
rejected, or it resolved but `pages()` fails), then — provided the retried
remote start succeeds — `start` performs exactly one forced reset (clearing
both slots and best-effort-closing every held session) and returns the
fresh session produced by a new remote start call, storing it in the slot
and registering its close handler; neither the probe failure nor the
internal already-started condition reaches the caller. -/
theorem start_resets_and_retries_when_probe_fails
    (env : Env) (st : CrxState) (incog : Bool) (cached : Except Err Nat) (s' fuel : Nat)
    (hslot : slotOf incog st = some cached)
    (hprobe : ∀ a : Nat, cached = .ok a → env.probeOk a = false)
    (hretry : env.startResult st.startCalls = .ok s') :
    ∃ st', Crx.startAux env incog (fuel + 2) st = some (.ok s', st') ∧
      slotOf incog st' = some (.ok s') ∧
      slotOf (!incog) st' = none ∧
      st'.ghostResets = st.ghostResets + 1 ∧
      st'.ghostClosed = st.ghostClosed ++ Crx.heldSessions st ∧
      st'.startCalls = st.startCalls + 1 ∧
      st'.handlers = (s', incog) :: st.handlers := by
  have hsplit : fuel + 2 = (fuel + 1) + 1 := rfl
  have hreduce : Crx.startAux env incog (fuel + 2) st =
      Crx.startAux env incog (fuel + 1) (Crx.resetForRetry env st) := by
    rw [hsplit]
    rcases cached with e | a
    · exact startAux_cached_error env incog (fuel + 1) st e hslot
    · exact startAux_cached_probeFail env incog (fuel + 1) st a hslot (hprobe a rfl)
  have hrslot : slotOf incog (Crx.resetForRetry env st) = none :=
    slotOf_resetForRetry env st incog
  have hok : env.startResult (Crx.resetForRetry env st).startCalls = .ok s' := by
    rw [startCalls_resetForRetry]; exact hretry
  refine ⟨_, hreduce.trans (startAux_empty_ok env incog fuel (Crx.resetForRetry env st) s' hrslot hok),
    slotOf_setSlot_same .., ?_, ?_, ?_, ?_, ?_⟩
  · rw [slotOf_setSlot_other]
    have : slotOf (!incog) ({ Crx.resetForRetry env st with
        startCalls := (Crx.resetForRetry env st).startCalls + 1
        handlers := (s', incog) :: (Crx.resetForRetry env st).handlers }) =
        slotOf (!incog) (Crx.resetForRetry env st) := by
      cases incog <;> rfl
    rw [this, slotOf_resetForRetry]
  · rw [ghostResets_setSlot]
    exact ghostResets_resetForRetry env st
  · rw [ghostClosed_setSlot]
    exact ghostClosed_resetForRetry env st
  · rw [startCalls_setSlot]
    show (Crx.resetForRetry env st).startCalls + 1 = st.startCalls + 1
    rw [startCalls_resetForRetry]
  · rw [handlers_setSlot]
    show (s', incog) :: (Crx.resetForRetry env st).handlers = (s', incog) :: st.handlers
    rw [handlers_resetForRetry]

/-- An environment whose remote starts succeed but whose cached sessions
always fail the liveness probe, and whose closes reject (the rejection must
be swallowed by the reset). -/
def deadProbeEnv : Env :=
  { startResult := fun k => .ok (k + 1)
    probeOk := fun _ => false
    closeResult := fun _ => .error (.remote false 3) }

/-- Witness for C2: a controller caching a session (9) that flunks the
probe resets and hands the caller the fresh session 1. -/
theorem start_resets_and_retries_when_probe_fails_check :
    ∃ st', Crx.startAux deadProbeEnv false (0 + 2)
        { initState with crxAppPromise := some (.ok 9) } = some (.ok 1, st') ∧
      slotOf false st' = some (.ok 1) ∧
      slotOf (!false) st' = none ∧
      st'.ghostResets = { initState with crxAppPromise := some (.ok 9) }.ghostResets + 1 ∧
      st'.ghostClosed = { initState with crxAppPromise := some (.ok 9) }.ghostClosed ++
        Crx.heldSessions { initState with crxAppPromise := some (.ok 9) } ∧
      st'.startCalls = { initState with crxAppPromise := some (.ok 9) }.startCalls + 1 ∧
      st'.handlers = (1, false) :: { initState with crxAppPromise := some (.ok 9) }.handlers :=
  start_resets_and_retries_when_probe_fails deadProbeEnv
    { initState with crxAppPromise := some (.ok 9) } false (.ok 9) 1 0 rfl
    (fun a h => by cases h; rfl) rfl

/-- An environment whose remote start always rejects with an error whose
message contains the substring `already started` — exactly the substring
the catch clause of `start` keys its recovery on. -/
def alwaysAlreadyStartedEnv : Env :=
  { startResult := fun _ => .error (.remote true 0)
    probeOk := fun _ => false
    closeResult := fun _ => .ok () }

/-- Under `alwaysAlreadyStartedEnv`, `start` on the normal mode never
settles, whatever recursion budget it is given: each attempt stores a
rejected promise whose error message matches `already started`, so the
catch clause probes, fails, resets and recurses. -/
lemma startAux_alwaysAlreadyStarted_none :
    ∀ (n : Nat) (st : CrxState), st.crxAppPromise = none →
      Crx.startAux alwaysAlreadyStartedEnv false n st = none := by
  intro n
  induction n with
  | zero => intro st _; rfl
  | succ n ih =>
    intro st hslot
    have hs : slotOf false st = none := hslot
    simp only [Crx.startAux, hs, Crx.crxStart, alwaysAlreadyStartedEnv,
      Err.includesAlreadyStarted, if_true]
    exact ih _ rfl

/-- Counterexample to C3 as stated.  The claim says `start` never loops
through reset-and-retry unboundedly; but when the remote start call keeps
rejecting with a message containing `already started`, the catch clause of
`start` mistakes its own rejected slot for a stale cached session and
recurses forever: on a fresh controller no recursion budget suffices. -/
theorem start_retry_loop_unbounded_cex :
    ¬ ∃ fuel : Nat,
        (Crx.startAux alwaysAlreadyStartedEnv false fuel initState).isSome = true := by
  rintro ⟨fuel, hfuel⟩
  rw [startAux_alwaysAlreadyStarted_none fuel initState rfl] at hfuel
  simp at hfuel

/-- C3 as amended.  For every external `start(mode)` invocation, the
reset-and-retry recovery path executes at most once — recursion depth two
always settles, and at most one forced reset is performed — provided every
remote start failure carries a message that does not contain the substring
`already started` (the discriminator the catch clause keys on).  Without
that proviso the code does not bound the recursion, as the counterexample
shows. -/
theorem start_single_reset_retry_with_clean_errors
    (env : Env) (incog : Bool) (st : CrxState) (fuel : Nat)
    (hclean : ∀ k e, env.startResult k = .error e → e.includesAlreadyStarted = false) :
    ∃ r st', Crx.startAux env incog (fuel + 2) st = some (r, st') ∧
      st'.ghostResets ≤ st.ghostResets + 1 := by
  have hsplit : fuel + 2 = (fuel + 1) + 1 := rfl
  rcases hslot : slotOf incog st with _ | (e | a)
  · obtain ⟨r, st', h, hg⟩ :=
      startAux_empty_clean env incog (fuel + 1) st hslot (fun e => hclean st.startCalls e)
    exact ⟨r, st', by rw [hsplit]; exact h, by rw [hg]; exact Nat.le_succ _⟩
  · have hred := startAux_cached_error env incog (fuel + 1) st e hslot
    obtain ⟨r, st', h, hg⟩ := startAux_empty_clean env incog fuel (Crx.resetForRetry env st)
      (slotOf_resetForRetry env st incog)
      (fun e => hclean (Crx.resetForRetry env st).startCalls e)
    refine ⟨r, st', by rw [hsplit]; exact hred.trans h, ?_⟩
    rw [hg, ghostResets_resetForRetry]
  · by_cases hp : env.probeOk a = true
    · exact ⟨.ok a, st, by rw [hsplit]; exact startAux_cached_ok env incog (fuel + 1) st a hslot hp,
        Nat.le_succ _⟩
    · have hp' : env.probeOk a = false := by simpa using hp
      have hred := startAux_cached_probeFail env incog (fuel + 1) st a hslot hp'
      obtain ⟨r, st', h, hg⟩ := startAux_empty_clean env incog fuel (Crx.resetForRetry env st)
        (slotOf_resetForRetry env st incog)
        (fun e => hclean (Crx.resetForRetry env st).startCalls e)
      refine ⟨r, st', by rw [hsplit]; exact hred.trans h, ?_⟩
      rw [hg, ghostResets_resetForRetry]

/-- Witness for the amended C3: in an all-successful environment a fresh
`start` settles within recursion depth two and performs at most one forced
reset. -/
theorem start_single_reset_retry_with_clean_errors_check :
    ∃ r st', Crx.startAux allOkEnv false (0 + 2) initState = some (r, st') ∧
      st'.ghostResets ≤ initState.ghostResets + 1 :=
  start_single_reset_retry_with_clean_errors allOkEnv false initState 0
    (fun _ _ h => Except.noConfusion h)

/-- An environment whose remote start always rejects with an ordinary
error (message without the substring `already started`, tag 7). -/
def failingStartEnv : Env :=
  { startResult := fun _ => .error (.remote false 7)
    probeOk := fun _ => true
    closeResult := fun _ => .ok () }

/-- Counterexample to C4 as stated.  The claim says that when the
slot-empty path's remote start fails, the controller clears the slot so a
later `get(mode)` reports absent.  On a fresh controller whose remote
start rejects with error tag 7, `start` does propagate the failure, but
the slot afterwards still holds the rejected promise — it is not cleared —
and `get` on that state rejects with the same error instead of reporting
absent. -/
theorem start_failure_keeps_rejected_slot_cex :
    (Crx.startAux failingStartEnv false 1 initState).map
        (fun p => (p.1, slotOf false p.2, Crx.get false p.2)) =
      some (.error (Err.remote false 7), some (.error (Err.remote false 7)),
        .error (Err.remote false 7)) := rfl

/-- C4 as amended.  For every mode, when `start(mode)` takes the
slot-empty path and the remote start call fails with an error whose
message does not contain `already started`, that failure propagates
verbatim to the caller, but the slot for the mode retains the rejected
operation: a later `get(mode)` rejects with the same failure rather than
reporting absent (so a later `start(mode)` finds the slot non-empty and
goes through the probe/reset/retry path, not the fresh-start path).  The
other mode's slot is untouched. -/
theorem start_failure_propagates_and_keeps_rejected_slot
    (env : Env) (st : CrxState) (incog : Bool) (e : Err) (fuel : Nat)
    (hslot : slotOf incog st = none)
    (herr : env.startResult st.startCalls = .error e)
    (hflag : e.includesAlreadyStarted = false) :
    ∃ st', Crx.startAux env incog (fuel + 1) st = some (.error e, st') ∧
      slotOf incog st' = some (.error e) ∧
      Crx.get incog st' = .error e ∧
      slotOf (!incog) st' = slotOf (!incog) st := by
  refine ⟨_, startAux_empty_error env incog fuel st e hslot herr hflag, ?_, ?_, ?_⟩
  · exact slotOf_setSlot_same ..
  · simp only [Crx.get, slotOf_setSlot_same]
  · rw [slotOf_setSlot_other]
    cases incog <;> rfl

/-- Witness for the amended C4: concrete run with error tag 7 on a fresh
controller. -/
theorem start_failure_propagates_and_keeps_rejected_slot_check :
    ∃ st', Crx.startAux failingStartEnv false (0 + 1) initState =
        some (.error (Err.remote false 7), st') ∧
      slotOf false st' = some (.error (Err.remote false 7)) ∧
      Crx.get false st' = .error (Err.remote false 7) ∧
      slotOf (!false) st' = slotOf (!false) initState :=
  start_failure_propagates_and_keeps_rejected_slot failingStartEnv initState false
    (Err.remote false 7) 0 rfl rfl rfl

/-- C5.  `forceReset` leaves both mode slots empty, attempts a best-effort
close of exactly the sessions it held, produces a result completely
independent of how those closes (or the awaits of the old promises) turn
out — every error on that path is swallowed and `forceReset` never rejects
(it is total into `CrxState` precisely because the source catches
everything) — and is a no-op on a controller with both slots already
empty. -/
theorem forceReset_clears_then_closes_swallowing_errors (env : Env) (st : CrxState) :
    (Crx.forceReset env st).crxAppPromise = none ∧
    (Crx.forceReset env st).incognitoCrxPromise = none ∧
    (Crx.forceReset env st).ghostClosed = st.ghostClosed ++ Crx.heldSessions st ∧
    (∀ env' : Env, Crx.forceReset env st = Crx.forceReset env' st) ∧
    (st.crxAppPromise = none → st.incognitoCrxPromise = none → Crx.forceReset env st = st) := by
  refine ⟨rfl, rfl, ?_, ?_, ?_⟩
  · simp only [Crx.forceReset, tryCloseOld_both_eq_held]
  · intro env'
    simp only [Crx.forceReset, tryCloseOld_eq]
  · intro h1 h2
    cases st
    simp_all [Crx.forceReset, Crx.tryCloseOld]

/-- Witness for C5: on a fresh controller `forceReset` is a no-op. -/
theorem forceReset_clears_then_closes_swallowing_errors_check :
    Crx.forceReset deadProbeEnv initState = initState :=
  (forceReset_clears_then_closes_swallowing_errors deadProbeEnv initState).2.2.2.2 rfl rfl

/-- C6.  For every mode, when the session stored in that mode's slot emits
its close event (its registered close handler fires, and no handler for
the same session was registered on the other mode), the slot becomes empty
without any caller action: before the event `get(mode)` returned the
session, afterwards it returns absent, and the other mode's slot is
unchanged. -/
theorem close_event_clears_own_slot_only
    (st : CrxState) (s : Nat) (incog : Bool)
    (hslot : slotOf incog st = some (.ok s))
    (hmem : (s, incog) ∈ st.handlers)
    (hother : (s, !incog) ∉ st.handlers) :
    Crx.get incog st = .ok (some s) ∧
    slotOf incog (deliverClose s st) = none ∧
    Crx.get incog (deliverClose s st) = .ok none ∧
    slotOf (!incog) (deliverClose s st) = slotOf (!incog) st := by
  have h1 : slotOf incog (deliverClose s st) = none :=
    foldl_close_mem s st.handlers incog hmem st
  exact ⟨by simp only [Crx.get, hslot], h1, by simp only [Crx.get, h1],
    foldl_close_not_mem s st.handlers (!incog) hother st⟩

/-- Witness for C6: a controller holding session 3 on the normal slot and
session 4 on the incognito slot; session 3 closing empties only the normal
slot. -/
theorem close_event_clears_own_slot_only_check :
    Crx.get false
      { crxAppPromise := some (.ok 3), incognitoCrxPromise := some (.ok 4)
        handlers := [(3, false), (4, true)], startCalls := 2
        ghostResets := 0, ghostClosed := [] } = .ok (some 3) ∧
    slotOf false (deliverClose 3
      { crxAppPromise := some (.ok 3), incognitoCrxPromise := some (.ok 4)
        handlers := [(3, false), (4, true)], startCalls := 2
        ghostResets := 0, ghostClosed := [] }) = none ∧
    Crx.get false (deliverClose 3
      { crxAppPromise := some (.ok 3), incognitoCrxPromise := some (.ok 4)
        handlers := [(3, false), (4, true)], startCalls := 2
        ghostResets := 0, ghostClosed := [] }) = .ok none ∧
    slotOf (!false) (deliverClose 3
      { crxAppPromise := some (.ok 3), incognitoCrxPromise := some (.ok 4)
        handlers := [(3, false), (4, true)], startCalls := 2
        ghostResets := 0, ghostClosed := [] }) =
      slotOf (!false)
      { crxAppPromise := some (.ok 3), incognitoCrxPromise := some (.ok 4)
        handlers := [(3, false), (4, true)], startCalls := 2
        ghostResets := 0, ghostClosed := [] } :=
  close_event_clears_own_slot_only
    { crxAppPromise := some (.ok 3), incognitoCrxPromise := some (.ok 4)
      handlers := [(3, false), (4, true)], startCalls := 2
      ghostResets := 0, ghostClosed := [] } 3 false rfl (by decide) (by decide)

/-- The controller state after `start` on a fresh controller returned
session 1: the slot holds the resolved promise and the close handler of
session 1 is registered. -/
def staleSt1 : CrxState :=
  { crxAppPromise := some (.ok 1), incognitoCrxPromise := none, handlers := [(1, false)]
    startCalls := 1, ghostResets := 0, ghostClosed := [] }

/-- The state after `forceReset` discarded session 1: the slot is empty,
but session 1's close handler is still registered. -/
def staleSt2 : CrxState :=
  { crxAppPromise := none, incognitoCrxPromise := none, handlers := [(1, false)]
    startCalls := 1, ghostResets := 0, ghostClosed := [1] }

/-- The state after a second `start` stored the fresh session 2 in the
slot; the stale handler of the discarded session 1 is still registered. -/
def staleSt3 : CrxState :=
  { crxAppPromise := some (.ok 2), incognitoCrxPromise := none
    handlers := [(2, false), (1, false)], startCalls := 2, ghostResets := 0, ghostClosed := [1] }

/-- C7.  The close handler registered at start time clears its mode's slot
unconditionally, even when the slot has meanwhile been replaced: start
session 1, discard it with `forceReset`, start the fresh session 2 for the
same mode — when the discarded session 1's close event finally arrives, it
empties the slot that holds the live session 2, so `get` reports absent
although session 2 never closed (the only close delivered is session
1's). -/
theorem stale_close_event_clears_replaced_slot :
    Crx.startAux allOkEnv false 1 initState = some (.ok 1, staleSt1) ∧
    Crx.forceReset allOkEnv staleSt1 = staleSt2 ∧
    Crx.startAux allOkEnv false 1 staleSt2 = some (.ok 2, staleSt3) ∧
    slotOf false staleSt3 = some (.ok 2) ∧
    slotOf false (deliverClose 1 staleSt3) = none ∧
    Crx.get false (deliverClose 1 staleSt3) = .ok none :=
  ⟨rfl, rfl, rfl, rfl, rfl, rfl⟩

/-- Counterexample to C8 as stated.  The claim says `detached` is
re-emitted with payload the object `\x7b tabId \x7d` forwarded verbatim;
the constructor wiring instead emits the bare tab id: at inbound
`detached \x7b tabId: 7 \x7d` the emitted payload is the number 7, not the
object. -/
theorem detached_payload_not_object_cex :
    onChannelEvent id (.detached 7) ≠ specDetachedReEmission 7 := by decide

/-- C8 as amended.  For every inbound protocol event on a session's
channel, the session re-emits `attached` with payload the object
`\x7b tabId, page \x7d` (the page resolved through `Page.from`) and
`detached` with the bare tab id as payload (not wrapped in an object);
and the session emits `close` exactly when its owned browsing context
emits close — the explicit `close()` call emits nothing by itself. -/
theorem event_reemission_wiring (resolve : Nat → Nat) (pageRef tabId : Nat) :
    onChannelEvent resolve (.attached pageRef tabId) =
      [{ name := "attached", payload := .attachedObj tabId (resolve pageRef) }] ∧
    onChannelEvent resolve (.detached tabId) =
      [{ name := "detached", payload := .num tabId }] ∧
    onContextEvent .close = [{ name := "close", payload := .unit }] ∧
    closeCallEmits = [] :=
  ⟨rfl, rfl, rfl, rfl⟩

/-- Only inbound events move the recorder's local state: a run of mixed
commands and events ends in the same state as the run of its events
alone. -/
lemma runRecorder_filter_events (ops : List RecorderOp) :
    ∀ st : RecorderState, runRecorder st ops = runRecorder st (ops.filter RecorderOp.isEvent) := by
  induction ops with
  | nil => intro st; rfl
  | cons op t ih =>
    intro st
    cases op <;>
      simp only [runRecorder, List.foldl_cons, List.filter_cons, RecorderOp.isEvent,
        recorderStep, CrxRecorder.setMode, CrxRecorder.showCmd, CrxRecorder.hideCmd,
        if_true, if_false, Bool.false_eq_true] <;>
      exact ih _

/-- C9.  The recorder's local state starts as hidden with mode `none`, and
over every sequence of operations it changes only when an inbound `hide`,
`show` or `modeChanged` event arrives: `hide` sets hidden, `show` clears
hidden, `modeChanged` stores the event's mode (each touching nothing
else), while the commands `setMode`, `show` and `hide` send their channel
request without changing the local state at all. -/
theorem recorder_state_driven_only_by_events :
    (CrxRecorder.isHidden CrxRecorder.init = true ∧
      CrxRecorder.modeOf CrxRecorder.init = "none") ∧
    (∀ (st : RecorderState) (ops : List RecorderOp),
      runRecorder st ops = runRecorder st (ops.filter RecorderOp.isEvent)) ∧
    (∀ st : RecorderState,
      (CrxRecorder.onEvent .hideEv st).hidden = true ∧
      (CrxRecorder.onEvent .showEv st).hidden = false ∧
      (CrxRecorder.onEvent .hideEv st).mode = st.mode ∧
      (CrxRecorder.onEvent .showEv st).mode = st.mode ∧
      (∀ m, (CrxRecorder.onEvent (.modeChanged m) st).mode = m) ∧
      (∀ m, (CrxRecorder.onEvent (.modeChanged m) st).hidden = st.hidden)) ∧
    (∀ (st : RecorderState) (m : String),
      CrxRecorder.setMode m st = (st, .setModeReq m) ∧
      CrxRecorder.showCmd st = (st, .showRecorderReq) ∧
      CrxRecorder.hideCmd st = (st, .hideRecorderReq)) :=
  ⟨⟨rfl, rfl⟩, fun st ops => runRecorder_filter_events ops st,
    fun _ => ⟨rfl, rfl, rfl, rfl, fun _ => rfl, fun _ => rfl⟩,
    fun _ _ => ⟨rfl, rfl, rfl⟩⟩

/-- Counterexample to C10 as stated.  The claim quantifies over every URL
string; for the empty string, JavaScript truthiness makes the conditional
`urlOrUrls ? ... : undefined` take the `undefined` branch (an empty string
is falsy), so `attachAll(\x7b url: "" \x7d)` dispatches an absent url while
`attachAll(\x7b url: [""] \x7d)` dispatches the one-element array. -/
theorem attachAll_empty_string_url_cex :
    attachAllParams (R := Nat) { url := some (.inl ""), remaining := 0 } ≠
      attachAllParams (R := Nat) { url := some (.inr [""]), remaining := 0 } := by
  decide

/-- C10 as amended.  For every non-empty URL string `s` and remaining
options `r`, `attachAll` with url `s` dispatches the same request as with
url `[s]` (string-to-one-element-array normalization), and an absent url
stays absent; the empty string is the one exception: it is falsy, so it is
normalized to an absent url rather than to `[""]`. -/
theorem attachAll_url_normalization {R : Type} (s : String) (r : R) (hs : s ≠ "") :
    attachAllParams { url := some (.inl s), remaining := r } =
      attachAllParams { url := some (.inr [s]), remaining := r } ∧
    attachAllParams { url := none, remaining := r } =
      { url := none, remaining := r } := by
  constructor
  · simp [attachAllParams, normalizeUrl, hs]
  · rfl

/-- Witness for the amended C10 at a concrete URL. -/
theorem attachAll_url_normalization_check :
    attachAllParams (R := Nat) { url := some (.inl "https:"), remaining := 0 } =
      attachAllParams (R := Nat) { url := some (.inr ["https:"]), remaining := 0 } ∧
    attachAllParams (R := Nat) { url := none, remaining := 0 } = { url := none, remaining := 0 } :=
  attachAll_url_normalization "https:" 0 (by decide)
